import Mathlib

/-!
Shallow embedding of the Universal AI Image Generator
(universal_ai_image_generator.py) and verification of its
specification claims.

The network is modelled as an oracle environment: each provider
adapter performs one POST whose parsed outcome the environment
supplies, the Replicate adapter additionally polls a stream of
status responses, and downloads query an HTTP oracle from URL to
response. The filesystem is a map from path to file bytes. Machine
time (datetime.now) is passed in as a pre-formatted timestamp
string, making filename construction a pure function of its inputs.
-/

namespace UAIG

/-- File contents, modelled as a list of byte values. -/
abbrev Bytes := List Nat

/-- The credential registry held by the facade: lower-cased
provider name to API key (self.providers). -/
abbrev Providers := String → Option String

/-- ASCII model of Python str.lower, as applied to provider names. -/
def lowerChar (c : Char) : Char :=
  if 'A' ≤ c ∧ c ≤ 'Z' then Char.ofNat (c.toNat + 32) else c

/-- Lower-casing of a whole string (provider = provider.lower()). -/
def pyLower (s : String) : String := String.mk (s.toList.map lowerChar)

/-- add_provider: self.providers[provider_name.lower()] = api_key.
Dictionary assignment, so an existing entry is overwritten. -/
def add_provider (ps : Providers) (name key : String) : Providers :=
  fun n => if n = pyLower name then some key else ps n

/-- The character filter of download_image: c.isalnum() or
c in (space, hyphen, underscore). -/
def keepChar (c : Char) : Bool := c.isAlphanum || c = ' ' || c = '-' || c = '_'

/-- Python str.strip on a character list: drop whitespace from both ends. -/
def pyStrip (cs : List Char) : List Char :=
  ((cs.dropWhile Char.isWhitespace).reverse.dropWhile Char.isWhitespace).reverse

/-- safe_prompt construction from download_image: keep the first 50
characters that are alphanumeric, space, hyphen or underscore, strip
surrounding whitespace, then replace each space by an underscore. -/
def safePrompt (prompt : String) : String :=
  String.mk ((pyStrip ((prompt.toList.take 50).filter keepChar)).map
    (fun c => if c = ' ' then '_' else c))

/-- Two-digit zero padding, as in strftime %m %d %H %M %S. -/
def pad2 (n : Nat) : String := if n < 10 then "0" ++ toString n else toString n

/-- Four-digit zero padding, as in strftime %Y. -/
def pad4 (n : Nat) : String :=
  if n < 10 then "000" ++ toString n
  else if n < 100 then "00" ++ toString n
  else if n < 1000 then "0" ++ toString n
  else toString n

/-- The timestamp format of download_image:
datetime.now().strftime of YYYYMMDD_HHMMSS. -/
def strftimeTS (y mo d h mi s : Nat) : String :=
  pad4 y ++ pad2 mo ++ pad2 d ++ "_" ++ pad2 h ++ pad2 mi ++ pad2 s

/-- The filename built by download_image:
timestamp, provider and safe prompt joined by underscores, dot png. -/
def makeFilename (timestamp provider prompt : String) : String :=
  timestamp ++ "_" ++ provider ++ "_" ++ safePrompt prompt ++ ".png"

/-- A normalized generation result, modelling the dict returned by the
adapters: optional url key, optional base64 key, provider and model. -/
structure GenResult where
  url : Option String
  base64 : Option String
  provider : Option String
  model : String
deriving Repr, DecidableEq

/-- The full path os.path.join(self.download_folder, filename); the
provider field defaults to unknown via result.get. -/
def filePath (folder timestamp : String) (r : GenResult) (prompt : String) : String :=
  folder ++ "/" ++ makeFilename timestamp (r.provider.getD "unknown") prompt

/-- Value of a character in the standard base64 alphabet. -/
def b64Index (c : Char) : Option Nat :=
  if 'A' ≤ c ∧ c ≤ 'Z' then some (c.toNat - 65)
  else if 'a' ≤ c ∧ c ≤ 'z' then some (c.toNat - 71)
  else if '0' ≤ c ∧ c ≤ '9' then some (c.toNat + 4)
  else if c = '+' then some 62
  else if c = '/' then some 63
  else none

/-- Decode base64 characters four at a time; padding may close only the
final quad; a length that is not a multiple of four is malformed. -/
def b64Quads : List Char → Option Bytes
  | [] => some []
  | c1 :: c2 :: c3 :: c4 :: rest =>
    match b64Index c1, b64Index c2 with
    | some a, some b =>
      if c3 = '=' then
        if c4 = '=' ∧ rest = [] then some [a * 4 + b / 16] else none
      else
        match b64Index c3 with
        | some c =>
          if c4 = '=' then
            if rest = [] then some [a * 4 + b / 16, b % 16 * 16 + c / 4] else none
          else
            match b64Index c4 with
            | some d =>
              (b64Quads rest).map
                (fun t => (a * 4 + b / 16) :: (b % 16 * 16 + c / 4) :: (c % 4 * 64 + d) :: t)
            | none => none
        | none => none
    | _, _ => none
  | _ => none

/-- Model of base64.b64decode with default validation: characters
outside the alphabet and padding are discarded first, then the
remainder is decoded; failure is an exception (none). -/
def b64decodePy (s : String) : Option Bytes :=
  b64Quads (s.toList.filter (fun c => (b64Index c).isSome || c = '='))

/-- An HTTP GET response: whether raise_for_status passes, and the body. -/
structure HttpResp where
  ok : Bool
  body : Bytes

/-- The filesystem: a map from path to file contents. -/
abbrev FS := String → Option Bytes

/-- Writing a file replaces the contents at its path. -/
def writeFile (fs : FS) (p : String) (b : Bytes) : FS :=
  fun q => if q = p then some b else fs q

/-- Outcome of download_image: the returned path (none on failure),
the filesystem afterwards, and how many GET requests were issued. -/
structure DlOut where
  path : Option String
  fs : FS
  gets : Nat

/-- download_image: build the target path from timestamp, provider and
safe prompt; if the result has a url, GET it (failure of
raise_for_status is an exception giving None); otherwise if it has
base64, decode it (an exception on malformed input gives None);
otherwise report no image data; on success write the bytes and
return the path. -/
def download_image (folder timestamp : String) (http : String → HttpResp)
    (fs : FS) (r : GenResult) (prompt : String) : DlOut :=
  let fp := filePath folder timestamp r prompt
  match r.url with
  | some u =>
    let resp := http u
    if resp.ok then
      { path := some fp, fs := writeFile fs fp resp.body, gets := 1 }
    else
      { path := none, fs := fs, gets := 1 }
  | none =>
    match r.base64 with
    | some b =>
      match b64decodePy b with
      | some bytes => { path := some fp, fs := writeFile fs fp bytes, gets := 0 }
      | none => { path := none, fs := fs, gets := 0 }
    | none => { path := none, fs := fs, gets := 0 }

/-- A JSON value as it appears in the OpenAI request payload. -/
inductive JVal where
  | s (v : String)
  | n (v : Nat)
deriving Repr, DecidableEq

/-- The request payload of generate_openai: model, prompt, n and size
always; quality and style are added exactly when the model is
dall-e-3. -/
def openaiPayload (model prompt size quality style : String) : List (String × JVal) :=
  let payload := [("model", JVal.s model), ("prompt", JVal.s prompt),
    ("n", JVal.n 1), ("size", JVal.s size)]
  if model = "dall-e-3" then
    payload ++ [("quality", JVal.s quality), ("style", JVal.s style)]
  else payload

/-- The keys of a request payload. -/
def payloadKeys (l : List (String × JVal)) : List String := l.map Prod.fst

/-- The output field of a Replicate status response: a single value or
a sequence. -/
inductive ReplOutput where
  | single (s : String)
  | list (l : List String)
deriving Repr, DecidableEq

/-- One Replicate status response: the status string and the output. -/
structure StatusData where
  status : String
  output : ReplOutput
deriving Repr, DecidableEq

/-- Indexing output zero of a succeeded response: the value itself if
single, the first element if a sequence; an empty sequence raises
IndexError (none). -/
def extractOutput : ReplOutput → Option String
  | .single s => some s
  | .list [] => none
  | .list (h :: _) => some h

/-- Terminal outcome of the Replicate poll loop. -/
inductive PollOutcome where
  | succeeded (url : Option String)
  | failed
deriving Repr, DecidableEq

/-- The while-True poll loop of generate_replicate, run on the stream
of successive status responses with explicit fuel: at each iteration
it issues one GET at index i; status succeeded returns the extracted
output and status failed returns failure, each together with the
total number of GET requests issued; any other status loops. The
outer none means the fuel ran out with the loop still running, since
the source loop has no timeout of its own. -/
def pollLoopFuel (stream : Nat → StatusData) : Nat → Nat → Option (PollOutcome × Nat)
  | 0, _ => none
  | fuel + 1, i =>
    let sd := stream i
    if sd.status = "succeeded" then some (.succeeded (extractOutput sd.output), i + 1)
    else if sd.status = "failed" then some (.failed, i + 1)
    else pollLoopFuel stream fuel (i + 1)

/-- The oracle environment: the formatted timestamp of datetime.now,
the parsed outcome of each provider POST (none models any transport
failure, non-success status or missing field, all caught as
exceptions), whether the Replicate submission yields a prediction
url, the stream of Replicate status responses, and the HTTP GET
oracle used for downloads. -/
structure Env where
  timestamp : String
  openaiResp : Option String
  grokResp : Option String
  stabilityResp : Option String
  togetherResp : Option String
  replicateSubmit : Bool
  replicateStatus : Nat → StatusData
  http : String → HttpResp

/-- generate_openai: fail with no call when no openai credential is
registered; otherwise one POST whose parsed response yields a url
dict or an exception (None). Returns the result and the number of
network calls. -/
def generate_openai (ps : Providers) (env : Env) : Option GenResult × Nat :=
  if ps "openai" = none then (none, 0)
  else
    match env.openaiResp with
    | some u =>
      (some { url := some u
              base64 := none
              provider := some "openai"
              model := "dall-e-3" }, 1)
    | none => (none, 1)

/-- generate_grok: same shape as generate_openai with the grok key. -/
def generate_grok (ps : Providers) (env : Env) : Option GenResult × Nat :=
  if ps "grok" = none then (none, 0)
  else
    match env.grokResp with
    | some u =>
      (some { url := some u
              base64 := none
              provider := some "grok"
              model := "grok-2-vision-1212" }, 1)
    | none => (none, 1)

/-- generate_stability: one POST; the response carries the image bytes
inline as base64. -/
def generate_stability (ps : Providers) (env : Env) : Option GenResult × Nat :=
  if ps "stability" = none then (none, 0)
  else
    match env.stabilityResp with
    | some b =>
      (some { url := none
              base64 := some b
              provider := some "stability"
              model := "stable-diffusion-xl-1024-v1-0" }, 1)
    | none => (none, 1)

/-- generate_together: same shape as generate_openai with the together
key. -/
def generate_together (ps : Providers) (env : Env) : Option GenResult × Nat :=
  if ps "together" = none then (none, 0)
  else
    match env.togetherResp with
    | some u =>
      (some { url := some u
              base64 := none
              provider := some "together"
              model := "black-forest-labs/FLUX.1-schnell" }, 1)
    | none => (none, 1)

/-- generate_replicate: fail with no call when no replicate credential
is registered; otherwise one submit POST (a failed submission is an
exception), then the poll loop. A succeeded status whose output is
an empty sequence raises IndexError, caught by the handler as None.
The call count is the submit POST plus the status GETs. The outer
none again means the poll loop is still running after the given
fuel. -/
def generate_replicate (ps : Providers) (env : Env) (fuel : Nat) :
    Option (Option GenResult × Nat) :=
  if ps "replicate" = none then some (none, 0)
  else if env.replicateSubmit then
    match pollLoopFuel env.replicateStatus fuel 0 with
    | some (.succeeded urlOpt, gets) =>
      match urlOpt with
      | some u =>
        some (some { url := some u
                     base64 := none
                     provider := some "replicate"
                     model := "stability-ai/sdxl" }, 1 + gets)
      | none => some (none, 1 + gets)
    | some (.failed, gets) => some (none, 1 + gets)
    | none => none
  else some (none, 1)

/-- Outcome of generate: the returned filepath (None on failure), the
filesystem afterwards, and the total number of network calls. -/
structure GenOut where
  path : Option String
  fs : FS
  calls : Nat

/-- The tail of generate: if the adapter produced a result, download
it, otherwise return None; network calls accumulate. -/
def runDownload (folder : String) (env : Env) (fs : FS)
    (res : Option GenResult × Nat) (prompt : String) : GenOut :=
  match res.1 with
  | some r =>
    let dl := download_image folder env.timestamp env.http fs r prompt
    { path := dl.path, fs := dl.fs, calls := res.2 + dl.gets }
  | none => { path := none, fs := fs, calls := res.2 }

/-- generate: lower-case the provider name, dispatch on it to the five
adapters, report an unknown provider as None with no call, and pipe
a successful result through download_image. The outer none only
arises on the Replicate branch when its poll loop outruns the fuel. -/
def generate (folder : String) (ps : Providers) (provider prompt : String)
    (env : Env) (fs : FS) (fuel : Nat) : Option GenOut :=
  let p := pyLower provider
  if p = "openai" then some (runDownload folder env fs (generate_openai ps env) prompt)
  else if p = "grok" then some (runDownload folder env fs (generate_grok ps env) prompt)
  else if p = "stability" then
    some (runDownload folder env fs (generate_stability ps env) prompt)
  else if p = "replicate" then
    match generate_replicate ps env fuel with
    | some res => some (runDownload folder env fs res prompt)
    | none => none
  else if p = "together" then
    some (runDownload folder env fs (generate_together ps env) prompt)
  else some { path := none, fs := fs, calls := 0 }

/-- A non-terminal Replicate status response. -/
def pendingSD : StatusData := { status := "pending", output := ReplOutput.list [] }

/-- A succeeded status response whose output is a two-element sequence. -/
def succSD : StatusData :=
  { status := "succeeded"
    output := ReplOutput.list ["http://img.example/1.png", "http://img.example/2.png"] }

/-- A failed status response. -/
def failSD : StatusData := { status := "failed", output := ReplOutput.list [] }

/-- The status stream pending, pending, succeeded. -/
def stream1 : Nat → StatusData := fun i => if i < 2 then pendingSD else succSD

/-- A status stream whose first response is already failed. -/
def stream2 : Nat → StatusData := fun _ => failSD

/-- A status stream that never reaches a terminal status. -/
def streamPend : Nat → StatusData := fun _ => pendingSD

/-- A healthy oracle environment: every provider call succeeds and
every download returns a small non-empty body. -/
def env0 : Env :=
  { timestamp := "20240102_030405"
    openaiResp := some "http://img.example/x.png"
    grokResp := some "http://img.example/g.png"
    stabilityResp := some "aGk="
    togetherResp := some "http://img.example/t.png"
    replicateSubmit := true
    replicateStatus := stream1
    http := fun _ => { ok := true, body := [137, 80] } }

/-- Like env0 but every download returns a 200 response with an empty
body. -/
def envE : Env := { env0 with http := fun _ => { ok := true, body := [] } }

/-- Like env0 but the Replicate job fails immediately. -/
def envF : Env := { env0 with replicateStatus := stream2 }

/-- A registry holding only an OpenAI credential. -/
def ps1 : Providers := add_provider (fun _ => none) "openai" "sk-test"

/-- A registry holding only a Replicate credential. -/
def psR : Providers := add_provider (fun _ => none) "replicate" "r8-key"

/-- A generation result carrying both a url and an inline base64
payload. -/
def rBoth : GenResult :=
  { url := some "http://img.example/x.png"
    base64 := some "aGk="
    provider := some "openai"
    model := "dall-e-3" }

/-- C3: on the status stream pending, pending, succeeded the Replicate
poll loop returns the RemoteImage result after exactly two poll
iterations that observe a pending status, succeeding on the next
status check (three status GETs in total, so through the adapter one
submit POST plus three GETs); the first element of the sequence
output is used as the URL; a failed status yields the failure with
no further polling (a single status GET, none after the failure is
observed). -/
theorem c3_replicate_poll :
    stream1 0 = pendingSD ∧ stream1 1 = pendingSD ∧ stream1 2 = succSD
    ∧ pollLoopFuel stream1 10 0
        = some (PollOutcome.succeeded (some "http://img.example/1.png"), 3)
    ∧ pollLoopFuel stream2 10 0 = some (PollOutcome.failed, 1)
    ∧ generate_replicate psR env0 10
        = some (some { url := some "http://img.example/1.png"
                       base64 := none
                       provider := some "replicate"
                       model := "stability-ai/sdxl" }, 4)
    ∧ generate_replicate psR envF 10 = some (none, 2) := by
  decide

/-- C4: filename construction is the stated pure function of timestamp,
provider and prompt; the fixed timestamp 2024-01-02T03:04:05 with
provider grok and the mountain-landscape prompt yields exactly the
expected filename, and the prompt sun-ampersand-rain with
exclamation marks yields the safe prompt sun__rain. -/
theorem c4_filename_rule :
    strftimeTS 2024 1 2 3 4 5 = "20240102_030405"
    ∧ makeFilename (strftimeTS 2024 1 2 3 4 5) "grok" "a serene mountain landscape at sunset"
        = "20240102_030405_grok_a_serene_mountain_landscape_at_sunset.png"
    ∧ safePrompt "sun & rain!!" = "sun__rain" := by
  decide

/-- C1 counterexample: with an OpenAI credential registered, generate
with the empty prompt does not fail with an empty-prompt validation
error; the adapter is invoked, two network calls are made (the POST
and the download GET) and a saved path is returned. -/
theorem c1_counterexample :
    (generate "imgs" ps1 "openai" "" env0 (fun _ => none) 3).map
        (fun g => (g.path, g.calls))
      = some (some "imgs/20240102_030405_openai_.png", 2) := by
  decide

/-- C2 counterexample: when the download GET answers 200 with an empty
body, generate returns a success path whose file exists but is
empty, so the claim that a success path never names an empty file
fails. -/
theorem c2_counterexample :
    (generate "imgs" ps1 "openai" "cat" envE (fun _ => none) 3).map
        (fun g => (g.path, g.fs "imgs/20240102_030405_openai_cat.png"))
      = some (some "imgs/20240102_030405_openai_cat.png", some ([] : Bytes)) := by
  decide

/-- The number of GET requests issued by download_image depends only on
which payload branch is taken: one for the url branch, none
otherwise. -/
theorem download_image_gets (folder ts : String) (http : String → HttpResp) (fs : FS)
    (r : GenResult) (prompt : String) :
    (download_image folder ts http fs r prompt).gets = if r.url.isSome then 1 else 0 := by
  unfold download_image
  cases hu : r.url with
  | some u => by_cases hok : (http u).ok <;> simp [hok]
  | none =>
    cases hb : r.base64 with
    | some b => cases hd : b64decodePy b <;> simp [hb, hd]
    | none => simp [hb]

/-- When download_image returns a path, the final filesystem holds a
file at that path. -/
theorem download_image_written (folder ts : String) (http : String → HttpResp) (fs : FS)
    (r : GenResult) (prompt p : String)
    (h : (download_image folder ts http fs r prompt).path = some p) :
    ∃ b, (download_image folder ts http fs r prompt).fs p = some b := by
  obtain ⟨url, b64, pv, md⟩ := r
  cases url with
  | some u =>
    by_cases hok : (http u).ok
    · simp only [download_image, hok, if_true] at h ⊢
      simp only [Option.some.injEq] at h
      subst h
      exact ⟨(http u).body, by simp [writeFile]⟩
    · simp [download_image, hok] at h
  | none =>
    cases b64 with
    | some b =>
      cases hd : b64decodePy b with
      | some bytes =>
        simp only [download_image, hd] at h ⊢
        simp only [Option.some.injEq] at h
        subst h
        exact ⟨bytes, by simp [writeFile]⟩
      | none => simp [download_image, hd] at h
    | none => simp [download_image] at h

/-- When runDownload returns a path, the final filesystem holds a file
at that path. -/
theorem runDownload_written (folder : String) (env : Env) (fs : FS)
    (res : Option GenResult × Nat) (prompt p : String)
    (h : (runDownload folder env fs res prompt).path = some p) :
    ∃ b, (runDownload folder env fs res prompt).fs p = some b := by
  obtain ⟨ro, n⟩ := res
  cases ro with
  | some r =>
    simp only [runDownload] at h ⊢
    exact download_image_written folder env.timestamp env.http fs r prompt p h
  | none => simp [runDownload] at h

/-- C8: the Replicate poll loop has no timeout and no maximum attempt
count: on any status stream that never reaches the terminal statuses
succeeded or failed, the loop is still running after every amount of
fuel, from every starting index. -/
theorem c8_poll_no_timeout (stream : Nat → StatusData)
    (h : ∀ i, (stream i).status ≠ "succeeded" ∧ (stream i).status ≠ "failed") :
    ∀ fuel i, pollLoopFuel stream fuel i = none := by
  intro fuel
  induction fuel with
  | zero => intro i; rfl
  | succ n ih => intro i; simp [pollLoopFuel, (h i).1, (h i).2, ih (i + 1)]

/-- C8 witness: on the constant pending stream the poll loop is still
running after seven iterations of fuel. -/
theorem c8_poll_no_timeout_witness : pollLoopFuel streamPend 7 0 = none := by
  have h1 : pendingSD.status ≠ "succeeded" := by decide
  have h2 : pendingSD.status ≠ "failed" := by decide
  exact c8_poll_no_timeout streamPend (fun _ => ⟨h1, h2⟩) 7 0

/-- C7: the OpenAI request payload carries the quality and style keys
exactly when the model is dall-e-3; for every other model the
payload is exactly the four entries model, prompt, n and size. -/
theorem c7_openai_payload_quality_style (model prompt size quality style : String) :
    (("quality" ∈ payloadKeys (openaiPayload model prompt size quality style)
      ∧ "style" ∈ payloadKeys (openaiPayload model prompt size quality style))
      ↔ model = "dall-e-3")
    ∧ (model ≠ "dall-e-3" →
        openaiPayload model prompt size quality style
          = [("model", JVal.s model), ("prompt", JVal.s prompt), ("n", JVal.n 1),
             ("size", JVal.s size)]) := by
  by_cases h : model = "dall-e-3" <;>
    simp [openaiPayload, payloadKeys, h]

/-- C7 witness: the dall-e-2 payload is exactly the four base entries,
and the dall-e-3 payload carries the quality key. -/
theorem c7_openai_payload_quality_style_witness :
    openaiPayload "dall-e-2" "p" "512x512" "hd" "vivid"
        = [("model", JVal.s "dall-e-2"), ("prompt", JVal.s "p"), ("n", JVal.n 1),
           ("size", JVal.s "512x512")]
    ∧ "quality" ∈ payloadKeys (openaiPayload "dall-e-3" "p" "1024x1024" "hd" "vivid") :=
  ⟨(c7_openai_payload_quality_style "dall-e-2" "p" "512x512" "hd" "vivid").2 (by decide),
   (((c7_openai_payload_quality_style "dall-e-3" "p" "1024x1024" "hd" "vivid").1).mpr rfl).1⟩

/-- C9: the credential registry is keyed by the lower-cased provider
name: add_provider stores the key under the lower-cased name,
touches no other entry, overwrites any previous entry for the same
name, the entry is reachable under every other casing of the name,
and generate resolves the provider name case-insensitively. -/
theorem c9_case_insensitive_registry (ps : Providers) (n1 n2 key key2 : String)
    (h : pyLower n1 = pyLower n2) :
    add_provider ps n1 key (pyLower n1) = some key
    ∧ (∀ m, m ≠ pyLower n1 → add_provider ps n1 key m = ps m)
    ∧ (∀ m, add_provider (add_provider ps n1 key2) n1 key m = add_provider ps n1 key m)
    ∧ add_provider ps n1 key (pyLower n2) = some key
    ∧ (∀ folder prompt env fs fuel,
        generate folder ps n1 prompt env fs fuel
          = generate folder ps n2 prompt env fs fuel) := by
  refine ⟨by simp [add_provider], ?_, ?_, by simp [add_provider, ← h], ?_⟩
  · intro m hm
    simp [add_provider, hm]
  · intro m
    unfold add_provider
    by_cases hm : m = pyLower n1 <;> simp [hm]
  · intro folder prompt env fs fuel
    unfold generate
    rw [h]

/-- C9 witness: a key registered under the name OpenAI is stored under
the lower-cased key, and generate under the names GROK and grok is
the same call. -/
theorem c9_case_insensitive_registry_witness :
    add_provider (fun _ => none) "OpenAI" "sk1" (pyLower "OpenAI") = some "sk1"
    ∧ generate "imgs" ps1 "GROK" "cat" env0 (fun _ => none) 3
        = generate "imgs" ps1 "grok" "cat" env0 (fun _ => none) 3 :=
  ⟨(c9_case_insensitive_registry (fun _ => none) "OpenAI" "openai" "sk1" "old"
      (by decide)).1,
   (c9_case_insensitive_registry ps1 "GROK" "grok" "k" "k2" (by decide)).2.2.2.2
      "imgs" "cat" env0 (fun _ => none) 3⟩

/-- C6: download_image executes exactly one branch, selected by the
payload of the result: with a url it issues one GET and writes the
response body verbatim (failure of the status check yields None and
no write); otherwise with inline base64 it decodes it with no GET
(malformed encoding yields None and no write); with neither payload
it yields None with no GET and no write. -/
theorem c6_fetch_branches (folder ts : String) (http : String → HttpResp) (fs : FS)
    (r : GenResult) (prompt : String) :
    (∀ u, r.url = some u →
      ((http u).ok = true →
        download_image folder ts http fs r prompt
          = { path := some (filePath folder ts r prompt)
              fs := writeFile fs (filePath folder ts r prompt) (http u).body
              gets := 1 })
      ∧ ((http u).ok = false →
        download_image folder ts http fs r prompt
          = { path := none, fs := fs, gets := 1 }))
    ∧ (r.url = none → ∀ b, r.base64 = some b →
      (∀ bytes, b64decodePy b = some bytes →
        download_image folder ts http fs r prompt
          = { path := some (filePath folder ts r prompt)
              fs := writeFile fs (filePath folder ts r prompt) bytes
              gets := 0 })
      ∧ (b64decodePy b = none →
        download_image folder ts http fs r prompt
          = { path := none, fs := fs, gets := 0 }))
    ∧ (r.url = none → r.base64 = none →
      download_image folder ts http fs r prompt
        = { path := none, fs := fs, gets := 0 }) := by
  refine ⟨?_, ?_, ?_⟩
  · intro u hu
    constructor
    · intro hok
      simp [download_image, hu, hok]
    · intro hok
      simp [download_image, hu, hok]
  · intro hu b hb
    constructor
    · intro bytes hd
      simp [download_image, hu, hb, hd]
    · intro hd
      simp [download_image, hu, hb, hd]
  · intro hu hb
    simp [download_image, hu, hb]

/-- C6 witness: a url result is downloaded and written verbatim, and a
result with no payload yields None. -/
theorem c6_fetch_branches_witness :
    download_image "imgs" "ts" (fun _ => { ok := true, body := [7, 8] }) (fun _ => none)
        { url := some "http://img.example/x.png", base64 := none
          provider := some "openai", model := "dall-e-3" } "p"
      = { path := some (filePath "imgs" "ts"
            { url := some "http://img.example/x.png", base64 := none
              provider := some "openai", model := "dall-e-3" } "p")
          fs := writeFile (fun _ => none)
            (filePath "imgs" "ts"
              { url := some "http://img.example/x.png", base64 := none
                provider := some "openai", model := "dall-e-3" } "p") [7, 8]
          gets := 1 }
    ∧ download_image "imgs" "ts" (fun _ => { ok := true, body := [7, 8] }) (fun _ => none)
        { url := none, base64 := none, provider := some "openai", model := "dall-e-3" } "p"
      = { path := none, fs := fun _ => none, gets := 0 } :=
  ⟨((c6_fetch_branches "imgs" "ts" (fun _ => { ok := true, body := [7, 8] }) (fun _ => none)
      { url := some "http://img.example/x.png", base64 := none
        provider := some "openai", model := "dall-e-3" } "p").1
      "http://img.example/x.png" rfl).1 rfl,
   (c6_fetch_branches "imgs" "ts" (fun _ => { ok := true, body := [7, 8] }) (fun _ => none)
      { url := none, base64 := none, provider := some "openai", model := "dall-e-3" } "p").2.2
      rfl rfl⟩

/-- C10: when the result carries a url, download_image ignores the
inline base64 payload entirely: the outcome is the same for every
value of the base64 field, and in particular a failing download is
not rescued by a decodable inline payload. -/
theorem c10_url_branch_priority (folder ts : String) (http : String → HttpResp) (fs : FS)
    (r : GenResult) (prompt u : String) (h : r.url = some u) (b : Option String) :
    download_image folder ts http fs { r with base64 := b } prompt
      = download_image folder ts http fs { r with base64 := none } prompt
    ∧ ((http u).ok = false →
      download_image folder ts http fs { r with base64 := b } prompt
        = { path := none, fs := fs, gets := 1 }) := by
  obtain ⟨url, b64, pv, md⟩ := r
  simp only at h
  subst h
  constructor
  · rfl
  · intro hok
    simp [download_image, hok]

/-- C10 witness: on a result carrying both a url and a decodable base64
payload, a failing GET yields None; the inline payload is not used
as a fallback. -/
theorem c10_url_branch_priority_witness :
    download_image "imgs" "ts" (fun _ => { ok := false, body := [] }) (fun _ => none)
        rBoth "p"
      = { path := none, fs := fun _ => none, gets := 1 } :=
  (c10_url_branch_priority "imgs" "ts" (fun _ => { ok := false, body := [] })
    (fun _ => none) rBoth "p" "http://img.example/x.png" rfl (some "aGk=")).2 rfl

/-- C5: a provider name whose lower-casing is not one of the five known
adapter kinds makes generate fail immediately with no network call,
and a known provider name with no registered credential also makes
generate fail immediately with no network call. -/
theorem c5_unknown_or_unconfigured (folder : String) (ps : Providers)
    (name prompt : String) (env : Env) (fs : FS) (fuel : Nat) :
    (pyLower name ∉ (["openai", "grok", "stability", "replicate", "together"] : List String) →
      generate folder ps name prompt env fs fuel
        = some { path := none, fs := fs, calls := 0 })
    ∧ (ps (pyLower name) = none →
      generate folder ps name prompt env fs fuel
        = some { path := none, fs := fs, calls := 0 }) := by
  constructor
  · intro h
    simp only [List.mem_cons, List.not_mem_nil, or_false, not_or] at h
    obtain ⟨h1, h2, h3, h4, h5⟩ := h
    simp [generate, h1, h2, h3, h4, h5]
  · intro h
    by_cases h1 : pyLower name = "openai"
    · rw [h1] at h
      simp [generate, h1, generate_openai, h, runDownload]
    by_cases h2 : pyLower name = "grok"
    · rw [h2] at h
      simp [generate, h1, h2, generate_grok, h, runDownload]
    by_cases h3 : pyLower name = "stability"
    · rw [h3] at h
      simp [generate, h1, h2, h3, generate_stability, h, runDownload]
    by_cases h4 : pyLower name = "replicate"
    · rw [h4] at h
      simp [generate, h1, h2, h3, h4, generate_replicate, h, runDownload]
    by_cases h5 : pyLower name = "together"
    · rw [h5] at h
      simp [generate, h1, h2, h3, h4, h5, generate_together, h, runDownload]
    · simp [generate, h1, h2, h3, h4, h5]

/-- C5 witness: an unknown provider name fails with no call, and the
known name OpenAI with no registered credential fails with no
call. -/
theorem c5_unknown_or_unconfigured_witness :
    generate "imgs" (fun _ => none) "mystery" "cat" env0 (fun _ => none) 3
      = some { path := none, fs := fun _ => none, calls := 0 }
    ∧ generate "imgs" (fun _ => none) "OpenAI" "cat" env0 (fun _ => none) 3
      = some { path := none, fs := fun _ => none, calls := 0 } :=
  ⟨(c5_unknown_or_unconfigured "imgs" (fun _ => none) "mystery" "cat" env0
      (fun _ => none) 3).1 (by decide),
   (c5_unknown_or_unconfigured "imgs" (fun _ => none) "OpenAI" "cat" env0
      (fun _ => none) 3).2 rfl⟩

/-- C1 amended: generate performs no empty-prompt validation. With an
OpenAI credential registered, generate with the empty prompt invokes
the adapter and makes at least one network call, and it makes
exactly as many network calls as the same call with any other
prompt. -/
theorem c1_no_empty_prompt_check (folder : String) (ps : Providers) (env : Env)
    (fs : FS) (fuel : Nat) (key prompt : String) (h : ps "openai" = some key) :
    (∃ g, generate folder ps "openai" "" env fs fuel = some g ∧ 1 ≤ g.calls)
    ∧ (generate folder ps "openai" "" env fs fuel).map (fun g => g.calls)
      = (generate folder ps "openai" prompt env fs fuel).map (fun g => g.calls) := by
  have hne : ¬ps "openai" = none := by simp [h]
  constructor
  · refine ⟨runDownload folder env fs (generate_openai ps env) "", rfl, ?_⟩
    unfold generate_openai
    rw [if_neg hne]
    cases henv : env.openaiResp with
    | some u =>
      simp [runDownload, download_image_gets]
    | none => simp [runDownload]
  · have e1 : generate folder ps "openai" "" env fs fuel
        = some (runDownload folder env fs (generate_openai ps env) "") := rfl
    have e2 : generate folder ps "openai" prompt env fs fuel
        = some (runDownload folder env fs (generate_openai ps env) prompt) := rfl
    rw [e1, e2]
    unfold runDownload
    cases hres : (generate_openai ps env).1 with
    | some r => simp [download_image_gets]
    | none => rfl

/-- C1 amended witness: with an OpenAI credential registered, generate
with the empty prompt succeeds with positive call count, and its
call count agrees with a non-empty prompt. -/
theorem c1_no_empty_prompt_check_witness :
    (∃ g, generate "imgs" ps1 "openai" "" env0 (fun _ => none) 3 = some g ∧ 1 ≤ g.calls)
    ∧ (generate "imgs" ps1 "openai" "" env0 (fun _ => none) 3).map (fun g => g.calls)
      = (generate "imgs" ps1 "openai" "cat" env0 (fun _ => none) 3).map (fun g => g.calls) :=
  c1_no_empty_prompt_check "imgs" ps1 env0 (fun _ => none) 3 "sk-test" "cat" rfl

/-- C2 amended: whenever generate returns a path, the final filesystem
holds a file at that path (the fetched bytes were written before the
path was returned); the file can however be empty when the fetched
content is empty, as no emptiness check is performed. -/
theorem c2_success_file_exists (folder : String) (ps : Providers)
    (name prompt : String) (env : Env) (fs : FS) (fuel : Nat) (g : GenOut) (p : String)
    (hg : generate folder ps name prompt env fs fuel = some g)
    (hp : g.path = some p) :
    ∃ b, g.fs p = some b := by
  unfold generate at hg
  by_cases h1 : pyLower name = "openai"
  · rw [if_pos h1] at hg
    injection hg with hg
    subst hg
    exact runDownload_written folder env fs (generate_openai ps env) prompt p hp
  rw [if_neg h1] at hg
  by_cases h2 : pyLower name = "grok"
  · rw [if_pos h2] at hg
    injection hg with hg
    subst hg
    exact runDownload_written folder env fs (generate_grok ps env) prompt p hp
  rw [if_neg h2] at hg
  by_cases h3 : pyLower name = "stability"
  · rw [if_pos h3] at hg
    injection hg with hg
    subst hg
    exact runDownload_written folder env fs (generate_stability ps env) prompt p hp
  rw [if_neg h3] at hg
  by_cases h4 : pyLower name = "replicate"
  · rw [if_pos h4] at hg
    cases hrep : generate_replicate ps env fuel with
    | some res =>
      rw [hrep] at hg
      injection hg with hg
      subst hg
      exact runDownload_written folder env fs res prompt p hp
    | none => rw [hrep] at hg; cases hg
  rw [if_neg h4] at hg
  by_cases h5 : pyLower name = "together"
  · rw [if_pos h5] at hg
    injection hg with hg
    subst hg
    exact runDownload_written folder env fs (generate_together ps env) prompt p hp
  rw [if_neg h5] at hg
  injection hg with hg
  subst hg
  simp at hp

/-- C2 amended witness: a successful concrete generate call leaves a
file at the returned path. -/
theorem c2_success_file_exists_witness :
    ∃ b, (runDownload "imgs" env0 (fun _ => none) (generate_openai ps1 env0) "cat").fs
        "imgs/20240102_030405_openai_cat.png" = some b :=
  c2_success_file_exists "imgs" ps1 "openai" "cat" env0 (fun _ => none) 3
    (runDownload "imgs" env0 (fun _ => none) (generate_openai ps1 env0) "cat")
    "imgs/20240102_030405_openai_cat.png" rfl (by decide)

end UAIG
